import Mathlib

/-!
Shallow embedding of `custom_components/danfoss_ally/__init__.py`, the
Danfoss Ally Home Assistant integration.

Time is modelled in integer milliseconds (the source compares
`datetime` differences against 30 s, 1 s and 0.5 s).  The vendor API
client (`pydanfossally.DanfossAlly`) and the Home Assistant platform are
external collaborators: a network call's outcome is passed in as an
`Except` value, and observable platform interactions (the device-list
fetch, the dispatcher signal) are recorded as an explicit effect list.
-/

namespace DanfossAlly

/-- Time in milliseconds.  The source works with `datetime` values and
compares `total_seconds()` against 30, 1 and 0.5. -/
abbrev Time := Int

/-- `MIN_TIME_BETWEEN_UPDATES = timedelta(seconds=30)`, in milliseconds. -/
def MIN_TIME_BETWEEN_UPDATES : Time := 30000

/-- `datetime.min`, the initial value of `_latest_write_time` and
`_latest_poll_time` (year 1, far in the past of any poll time used here);
in milliseconds before the epoch. -/
def timeMin : Time := -62135596800000

/-- `DOMAIN` from `.const` (the `const.py` module is not in the tree; the
exact string is opaque to every claim — only equality of identifier
tuples matters). -/
def DOMAIN : String := "danfoss_ally"

/-- Exception taxonomy of the integration's error handling: the scheduled
update callback has handlers for `TimeoutError`, `exceptions.HTTPException`,
`ConnectionError` and a broad `except Exception`; authorization failures
raised by the vendor client land in the broad handler. -/
inductive UpdateError
  | timeout
  | httpError
  | connectionError
  | authFailure
  | other
deriving DecidableEq, Repr

/-- Observable side effects of `AllyConnector.async_update`: the blocking
device-list fetch (`self.ally.getDeviceList`, recorded with the time the
fetch begins) and the change broadcast
(`dispatcher_send(self.hass, SIGNAL_ALLY_UPDATE_RECEIVED)`). -/
inductive Effect
  | fetchDeviceList (startTime : Time)
  | dispatchSignal
deriving DecidableEq, Repr

/-- State of `AllyConnector` (plus the internal last-run time of the
`@Throttle(MIN_TIME_BETWEEN_UPDATES)` decorator wrapping `async_update`).
`ally_devices` is the vendor client's `devices` mapping, modelled as the
optional list of its device-id keys (`None` before a successful fetch). -/
structure AllyConnector where
  authorized : Bool
  latest_write_time : Time
  latest_poll_time : Time
  ally_devices : Option (List String)
  throttle_last_run : Option Time
deriving DecidableEq, Repr

/-- `AllyConnector.__init__`: not yet authorized, both timestamps at
`datetime.min`, vendor client freshly constructed (no devices fetched),
throttle never run. -/
def initConnector : AllyConnector :=
  { authorized := false
    latest_write_time := timeMin
    latest_poll_time := timeMin
    ally_devices := none
    throttle_last_run := none }

/-- The `devices` property: `return self.ally.devices`. -/
def AllyConnector.devices (s : AllyConnector) : Option (List String) :=
  s.ally_devices

/-- The guard of the platform's `Throttle` decorator: the wrapped method
runs when it has never run before, or when more than
`MIN_TIME_BETWEEN_UPDATES` elapsed since the last non-throttled call
(`utcnow() - last_call > min_time`); otherwise the call is a no-op
returning `None` immediately.  A throttled call does not refresh
`last_call`. -/
def AllyConnector.throttleExpired (s : AllyConnector) (now : Time) : Bool :=
  match s.throttle_last_run with
  | none => true
  | some t => decide (now - t > MIN_TIME_BETWEEN_UPDATES)

/-- The time at which `async_update`'s network fetch begins: if
`seconds_since_write < 1` the coroutine first does `asyncio.sleep(1)`,
postponing the fetch by one second; otherwise it fetches right away. -/
def fetchStart (now lwt : Time) : Time :=
  if now - lwt < 1000 then now + 1000 else now

/-- `AllyConnector.async_update`, including the `Throttle` wrapper.
A throttled call returns at once: no effects, no state change.  A
non-throttled call records the throttle's `last_call = now` (the wrapper
stamps it when the coroutine is produced, before the body runs or fails),
optionally sleeps 1 s after a recent write, then runs
`self.ally.getDeviceList()`; on success it replaces the client's device
cache, sets `_latest_poll_time`, and fires the dispatcher signal; a fetch
exception propagates out of the coroutine after the fetch attempt. -/
def async_update (s : AllyConnector) (now : Time)
    (vendorFetch : Except UpdateError (List String)) :
    AllyConnector × List Effect × Except UpdateError Unit :=
  if s.throttleExpired now then
    let t := fetchStart now s.latest_write_time
    match vendorFetch with
    | .error e =>
        ({ s with throttle_last_run := some now },
         [Effect.fetchDeviceList t], .error e)
    | .ok devs =>
        ({ s with
            ally_devices := some devs
            latest_poll_time := t
            throttle_last_run := some now },
         [Effect.fetchDeviceList t, Effect.dispatchSignal], .ok ())
  else (s, [], .ok ())

/-- A sequence of `async_update` calls at the given times, each with a
successful (empty) vendor fetch; returns each call's effect list. -/
def runUpdates (s : AllyConnector) : List Time → List (List Effect)
  | [] => []
  | t :: ts =>
      (async_update s t (Except.ok [])).2.1 ::
        runUpdates (async_update s t (Except.ok [])).1 ts

/-- `AllyConnector.set_temperature`: stamps `_latest_write_time = now`
first, then delegates `self.ally.setTemperature(...)`; a vendor exception
propagates.  On success the trailing diagnostic compares the time since
the last poll against 0.5 s (debug log only). -/
def set_temperature (s : AllyConnector) (now : Time)
    (device_id : String) (temperature : ℚ)
    (vendorCall : Except UpdateError Unit) :
    AllyConnector × Except UpdateError Unit × Bool :=
  let s' := { s with latest_write_time := now }
  match vendorCall with
  | .error e => (s', .error e, false)
  | .ok _ => (s', .ok (), decide (now - s.latest_poll_time < 500))

/-- `AllyConnector.set_mode`: same shape as `set_temperature`. -/
def set_mode (s : AllyConnector) (now : Time)
    (device_id : String) (mode : String)
    (vendorCall : Except UpdateError Unit) :
    AllyConnector × Except UpdateError Unit × Bool :=
  let s' := { s with latest_write_time := now }
  match vendorCall with
  | .error e => (s', .error e, false)
  | .ok _ => (s', .ok (), decide (now - s.latest_poll_time < 500))

/-- `AllyConnector.send_commands`: stamps `_latest_write_time` only when
`postponeupdate` is set, then delegates `self.ally.sendCommand(...)`
inside a `try`: any exception is caught and logged (the returned `Bool`),
and never propagates — the call always returns normally. -/
def send_commands (s : AllyConnector) (now : Time)
    (device_id : String) (listofcommands : List (String × String))
    (postponeupdate : Bool)
    (vendorCall : Except UpdateError Unit) :
    AllyConnector × Except UpdateError Unit × Bool :=
  let s' := if postponeupdate then { s with latest_write_time := now } else s
  match vendorCall with
  | .error _ => (s', .ok (), true)
  | .ok _ => (s', .ok (), false)

/-- A Home Assistant device-registry entry, as seen by the removal pass:
its registry id and its set of `(domain, identifier)` tuples (an entry
may carry several identifiers). -/
structure DeviceEntry where
  id : String
  identifiers : List (String × String)
deriving DecidableEq, Repr

/-- The "list of devices to keep" built at setup:
`devices.append((DOMAIN, device))` for each key of `ally.devices`. -/
def keptIdentifiers (devs : List String) : List (String × String) :=
  devs.map (fun d => (DOMAIN, d))

/-- The inner loop's removal condition: `async_remove_device` is invoked
for a registry entry as soon as one of its identifiers is not in the kept
list (`if identifier not in devices`). -/
def hasStaleIdentifier (devs : List String) (e : DeviceEntry) : Bool :=
  e.identifiers.any (fun ident => !(decide (ident ∈ keptIdentifiers devs)))

/-- The device-removal pass of `async_setup_entry` (lines 128–143):
guarded by `ally.devices is not None and len(ally.devices) > 0`, it
removes every entry of this config entry that has an identifier absent
from the kept list.  Returns the removed entries (the entries whose id is
passed to `async_remove_device`; an entry with several stale identifiers
is removed once). -/
def removedEntries (allyDevices : Option (List String))
    (registry : List DeviceEntry) : List DeviceEntry :=
  match allyDevices with
  | none => []
  | some devs =>
      if 0 < devs.length then registry.filter (hasStaleIdentifier devs)
      else []

/-- Outcome of `AllyConnector.setup` as observed by `async_setup_entry`:
it may raise a `TimeoutError`, raise anything else, or complete having
stored the vendor's `initialize` result in `_authorized`. -/
inductive SetupOutcome
  | timeout
  | otherExc
  | ok (auth : Bool)
deriving DecidableEq, Repr

/-- How `async_setup_entry` ends: `raise ConfigEntryNotReady` (retry
later), `return False` (hard failure), or `return True`. -/
inductive EntryResult
  | notReady
  | failed
  | success
deriving DecidableEq, Repr

/-- Observables of one `async_setup_entry` run. -/
structure SetupEntryOutput where
  result : EntryResult
  platformsForwarded : Bool
  removed : List DeviceEntry
  trackRegistered : Bool
  listenerRegistered : Bool
deriving DecidableEq, Repr

/-- `async_setup_entry`: builds a fresh connector, runs `setup()` in the
executor (`TimeoutError` → `ConfigEntryNotReady`; bare `except` → return
`False`; `not authorized` → return `False`), then performs the first
`_update(None)` (whose errors the callback swallows), runs the
device-removal pass on the resulting `ally.devices`, registers the
interval track and the options listener, and forwards the entity
platforms. -/
def async_setup_entry (setupRes : SetupOutcome) (now : Time)
    (vendorFetch : Except UpdateError (List String))
    (registry : List DeviceEntry) : SetupEntryOutput :=
  match setupRes with
  | .timeout => ⟨.notReady, false, [], false, false⟩
  | .otherExc => ⟨.failed, false, [], false, false⟩
  | .ok auth =>
      if auth then
        let s0 := { initConnector with authorized := true }
        let s1 := (async_update s0 now vendorFetch).1
        ⟨.success, true, removedEntries s1.ally_devices registry, true, true⟩
      else ⟨.failed, false, [], false, false⟩

/-- Observables of one run of the scheduled `_update(now)` callback:
the new value of `_update.error_reported`, whether an error was logged,
whether the "Connection reestablished" info line was logged, and whether
anything propagated out of the callback. -/
structure CallbackOutput where
  errorReported : Bool
  errorLogged : Bool
  infoLogged : Bool
  propagated : Bool
deriving DecidableEq, Repr

/-- The `_update` callback of `async_setup_entry`: awaits
`async_update`; on success it clears and reports a previously flagged
error; each of the four handlers (`TimeoutError`, `HTTPException`,
`ConnectionError`, broad `Exception` — the latter also catching
authorization failures) logs only when `not error_reported` or debug
logging is enabled, and sets the flag.  Nothing ever propagates. -/
def updateCallback (error_reported : Bool) (debugEnabled : Bool)
    (res : Except UpdateError Unit) : CallbackOutput :=
  match res with
  | .ok _ => ⟨false, false, error_reported, false⟩
  | .error e =>
      match e with
      | .timeout =>
          if !error_reported || debugEnabled then ⟨true, true, false, false⟩
          else ⟨error_reported, false, false, false⟩
      | .httpError =>
          if !error_reported || debugEnabled then ⟨true, true, false, false⟩
          else ⟨error_reported, false, false, false⟩
      | .connectionError =>
          if !error_reported || debugEnabled then ⟨true, true, false, false⟩
          else ⟨error_reported, false, false, false⟩
      | .authFailure =>
          if !error_reported || debugEnabled then ⟨true, true, false, false⟩
          else ⟨error_reported, false, false, false⟩
      | .other =>
          if !error_reported || debugEnabled then ⟨true, true, false, false⟩
          else ⟨error_reported, false, false, false⟩

/-- Consecutive ticks of the 45 s schedule: each tick runs the callback,
threading `_update.error_reported` (which `async_setup_entry` initializes
to `False`). -/
def runCallbacks (error_reported debugEnabled : Bool) :
    List (Except UpdateError Unit) → List CallbackOutput
  | [] => []
  | r :: rs =>
      let o := updateCallback error_reported debugEnabled r
      o :: runCallbacks o.errorReported debugEnabled rs

/-- Observables of `async_unload_entry`: whether each cancel handle was
invoked, the returned `unload_ok`, and the per-entry store afterwards
(the entry ids under `hass.data[DOMAIN]`). -/
structure UnloadOutput where
  trackCancelled : Bool
  listenerCancelled : Bool
  result : Bool
  store : List String
deriving DecidableEq, Repr

/-- `async_unload_entry`: gathers the platform unload results, computes
`unload_ok = all(...)`, invokes the `UPDATE_TRACK` and `UPDATE_LISTENER`
cancel handles unconditionally, and pops the per-entry state only when
`unload_ok`. -/
def async_unload_entry (storedEntries : List String) (entryId : String)
    (platformResults : List Bool) : UnloadOutput :=
  let unload_ok := platformResults.all id
  { trackCancelled := true
    listenerCancelled := true
    result := unload_ok
    store := if unload_ok then storedEntries.erase entryId else storedEntries }

/-! ## Helper equations for `async_update` -/

/-- A throttled call is the identity: no effects, no state change. -/
theorem async_update_throttled (s : AllyConnector) (now : Time)
    (vendorFetch : Except UpdateError (List String))
    (h : s.throttleExpired now = false) :
    async_update s now vendorFetch = (s, [], Except.ok ()) := by
  unfold async_update
  rw [h]
  simp

/-- Equation for a non-throttled call with a successful fetch. -/
theorem async_update_ok (s : AllyConnector) (now : Time) (devs : List String)
    (h : s.throttleExpired now = true) :
    async_update s now (Except.ok devs) =
      ({ s with
          ally_devices := some devs
          latest_poll_time := fetchStart now s.latest_write_time
          throttle_last_run := some now },
       [Effect.fetchDeviceList (fetchStart now s.latest_write_time),
        Effect.dispatchSignal],
       Except.ok ()) := by
  unfold async_update
  rw [h]
  simp

/-- Equation for a non-throttled call whose fetch raises. -/
theorem async_update_err (s : AllyConnector) (now : Time) (e : UpdateError)
    (h : s.throttleExpired now = true) :
    async_update s now (Except.error e) =
      ({ s with throttle_last_run := some now },
       [Effect.fetchDeviceList (fetchStart now s.latest_write_time)],
       Except.error e) := by
  unfold async_update
  rw [h]
  simp

/-! ## Theorems -/

/-- C5: during entry setup, a `TimeoutError` from `setup()` yields the
"not ready, retry later" state with no entity platforms forwarded; any
other exception, or completion with `authorized = False`, is a hard
failure (`return False`) with no entity platforms forwarded. -/
theorem setup_entry_failure_paths (now : Time)
    (vendorFetch : Except UpdateError (List String))
    (registry : List DeviceEntry) :
    (async_setup_entry .timeout now vendorFetch registry).result
        = .notReady ∧
    (async_setup_entry .timeout now vendorFetch registry).platformsForwarded
        = false ∧
    (async_setup_entry .otherExc now vendorFetch registry).result
        = .failed ∧
    (async_setup_entry .otherExc now vendorFetch registry).platformsForwarded
        = false ∧
    (async_setup_entry (.ok false) now vendorFetch registry).result
        = .failed ∧
    (async_setup_entry (.ok false) now vendorFetch registry).platformsForwarded
        = false := by
  refine ⟨rfl, rfl, rfl, rfl, ?_, ?_⟩ <;> simp [async_setup_entry]

/-- C7: a vendor-client exception inside `set_temperature` or `set_mode`
propagates to the caller unchanged, while a vendor-client exception inside
`send_commands` is caught and logged and the call returns normally. -/
theorem command_error_propagation (s : AllyConnector) (now : Time)
    (device_id : String) (temperature : ℚ) (mode : String)
    (cmds : List (String × String)) (postponeupdate : Bool)
    (e : UpdateError) :
    (set_temperature s now device_id temperature (.error e)).2.1
        = Except.error e ∧
    (set_mode s now device_id mode (.error e)).2.1 = Except.error e ∧
    (send_commands s now device_id cmds postponeupdate (.error e)).2.1
        = Except.ok () ∧
    (send_commands s now device_id cmds postponeupdate (.error e)).2.2
        = true := by
  exact ⟨rfl, rfl, rfl, rfl⟩

/-- C9: when the device list after the first update of entry setup is
still `None` (fetch failed) or is empty, the device-removal pass removes
nothing, whatever the registry contains. -/
theorem removal_pass_skipped_when_empty (now : Time)
    (registry : List DeviceEntry) (e : UpdateError) :
    (async_setup_entry (.ok true) now (.error e) registry).removed = [] ∧
    (async_setup_entry (.ok true) now (.ok []) registry).removed = [] := by
  constructor <;>
    simp [async_setup_entry, async_update, initConnector,
      AllyConnector.throttleExpired, removedEntries]

/-- C10: `set_temperature` and `set_mode` stamp
`_latest_write_time = now` before delegating to the vendor client, so the
timestamp is advanced even when the vendor call raises. -/
theorem write_time_advanced_on_error (s : AllyConnector) (now : Time)
    (device_id : String) (temperature : ℚ) (mode : String)
    (e : UpdateError) :
    (set_temperature s now device_id temperature (.error e)).1.latest_write_time
        = now ∧
    (set_mode s now device_id mode (.error e)).1.latest_write_time = now := by
  exact ⟨rfl, rfl⟩

/-- C8: on unload, both cancel handles are invoked regardless of the
platform unload results, and the per-entry state is removed from the
store exactly when every platform unload succeeded. -/
theorem unload_entry_behavior (storedEntries : List String)
    (entryId : String) (platformResults : List Bool)
    (h : entryId ∈ storedEntries) :
    (async_unload_entry storedEntries entryId platformResults).trackCancelled
        = true ∧
    (async_unload_entry storedEntries entryId platformResults).listenerCancelled
        = true ∧
    ((async_unload_entry storedEntries entryId platformResults).store
        = storedEntries.erase entryId ↔ ∀ r ∈ platformResults, r = true) := by
  refine ⟨rfl, rfl, ?_⟩
  have hstore : (async_unload_entry storedEntries entryId platformResults).store
      = if platformResults.all id then storedEntries.erase entryId
        else storedEntries := rfl
  rw [hstore]
  by_cases hall : platformResults.all id = true
  · rw [if_pos hall]
    simp only [eq_self_iff_true, true_iff]
    exact fun r hr => List.all_eq_true.mp hall r hr
  · rw [if_neg hall]
    have hlen : (storedEntries.erase entryId).length = storedEntries.length - 1 :=
      List.length_erase_of_mem h
    have hpos : 0 < storedEntries.length := List.length_pos.mpr (by
      intro hnil; simp [hnil] at h)
    constructor
    · intro heq
      exfalso
      have := congrArg List.length heq
      omega
    · intro hforall
      exact absurd (List.all_eq_true.mpr (fun r hr => hforall r hr)) hall

/-- C8 witness: a store holding `entry1`, unload with both platforms
succeeding — handles cancelled and the entry removed from the store. -/
theorem unload_entry_behavior_witness :
    (async_unload_entry ["entry1"] "entry1" [true, true]).trackCancelled
        = true ∧
    (async_unload_entry ["entry1"] "entry1" [true, true]).store
        = (["entry1"] : List String).erase "entry1" :=
  ⟨(unload_entry_behavior ["entry1"] "entry1" [true, true] (by decide)).1,
   (unload_entry_behavior ["entry1"] "entry1" [true, true]
      (by decide)).2.2.mpr (by decide)⟩

/-- C3: a non-throttled update starting less than 1 s after the latest
write first sleeps 1 s, so every fetch it issues begins exactly at
`now + 1 s` — never before that delay elapses. -/
theorem update_postpones_after_write (s : AllyConnector) (now : Time)
    (vendorFetch : Except UpdateError (List String))
    (hthr : s.throttleExpired now = true)
    (hw : now - s.latest_write_time < 1000) :
    (async_update s now vendorFetch).2.1.head?
        = some (Effect.fetchDeviceList (now + 1000)) ∧
    ∀ t, Effect.fetchDeviceList t ∈ (async_update s now vendorFetch).2.1 →
      now + 1000 ≤ t := by
  have hfs : fetchStart now s.latest_write_time = now + 1000 := if_pos hw
  cases vendorFetch with
  | error e =>
      rw [async_update_err s now e hthr]
      refine ⟨by simp [hfs], ?_⟩
      intro t ht
      simp only [hfs, List.mem_singleton, Effect.fetchDeviceList.injEq] at ht
      exact le_of_eq ht.symm
  | ok devs =>
      rw [async_update_ok s now devs hthr]
      refine ⟨by simp [hfs], ?_⟩
      intro t ht
      simp [hfs] at ht
      exact le_of_eq ht.symm

/-- C3 witness: fresh connector with a write at time 0, update called at
time 0 — the fetch begins at 1000 ms. -/
theorem update_postpones_after_write_witness :
    (async_update { initConnector with latest_write_time := 0 } 0
        (Except.ok [])).2.1.head?
      = some (Effect.fetchDeviceList 1000) :=
  (update_postpones_after_write { initConnector with latest_write_time := 0 }
    0 (Except.ok []) (by decide) (by decide)).1

/-- C4: a non-throttled update whose vendor fetch succeeds replaces the
client's device cache with the fetched list, sets `latest_poll_time` to
the fetch time, and emits exactly one change notification (its whole
effect trace is the fetch followed by one dispatch); the `devices`
accessor then returns the fetched list. -/
theorem update_success_effects (s : AllyConnector) (now : Time)
    (devs : List String) (hthr : s.throttleExpired now = true) :
    (async_update s now (Except.ok devs)).1.ally_devices = some devs ∧
    (async_update s now (Except.ok devs)).1.devices = some devs ∧
    (async_update s now (Except.ok devs)).1.latest_poll_time
        = fetchStart now s.latest_write_time ∧
    (async_update s now (Except.ok devs)).2.1
        = [Effect.fetchDeviceList (fetchStart now s.latest_write_time),
           Effect.dispatchSignal] ∧
    (async_update s now (Except.ok devs)).2.1.count Effect.dispatchSignal
        = 1 ∧
    (async_update s now (Except.ok devs)).2.2 = Except.ok () := by
  rw [async_update_ok s now devs hthr]
  refine ⟨rfl, rfl, rfl, rfl, ?_, rfl⟩
  simp [List.count_cons]

/-- C4 witness: the scenario of the spec — a fresh connector updated with
vendor devices `A` and `B` returns them from `devices` and fires the
change signal exactly once. -/
theorem update_success_effects_witness :
    (async_update initConnector 0 (Except.ok ["A", "B"])).1.devices
        = some ["A", "B"] ∧
    (async_update initConnector 0
        (Except.ok ["A", "B"])).2.1.count Effect.dispatchSignal = 1 :=
  ⟨(update_success_effects initConnector 0 ["A", "B"] (by decide)).2.1,
   (update_success_effects initConnector 0 ["A", "B"] (by decide)).2.2.2.2.1⟩

/-- C1 counterexample: a registry entry can carry several identifiers;
the removal loop removes the entry as soon as any one of them is stale.
Here entry `e1` carries `(DOMAIN, "A")` — which is present in the fetched
device set `["A"]` — yet it is removed, because its second identifier
`("zigbee", "X")` is absent. -/
theorem removal_pass_counterexample :
    (DOMAIN, "A") ∈ keptIdentifiers ["A"] ∧
    (⟨"e1", [(DOMAIN, "A"), ("zigbee", "X")]⟩ : DeviceEntry) ∈
      (async_setup_entry (.ok true) 0 (Except.ok ["A"])
        [⟨"e1", [(DOMAIN, "A"), ("zigbee", "X")]⟩]).removed := by
  decide

/-- C1 (amended): after a successful update during entry setup with a
nonempty fetched device set, the removal pass removes exactly those
registry entries having at least one identifier absent from the fetched
device set's kept identifiers — an entry all of whose identifiers are
present is kept. -/
theorem removal_pass_stale_iff (devs : List String) (hne : devs ≠ [])
    (now : Time) (registry : List DeviceEntry) (e : DeviceEntry) :
    e ∈ (async_setup_entry (.ok true) now (Except.ok devs) registry).removed ↔
      e ∈ registry ∧ ∃ ident ∈ e.identifiers, ident ∉ keptIdentifiers devs := by
  have hthr : ({ initConnector with authorized := true } :
      AllyConnector).throttleExpired now = true := rfl
  have hrem : (async_setup_entry (.ok true) now (Except.ok devs)
        registry).removed = removedEntries (some devs) registry := by
    simp [async_setup_entry, async_update_ok _ now devs hthr]
  rw [hrem]
  have hlen : 0 < devs.length := List.length_pos.mpr hne
  simp [removedEntries, hlen, List.mem_filter, hasStaleIdentifier,
    List.any_eq_true]

/-- C1 witness: an entry whose only identifier is stale is removed when
the fetched set is the nonempty `["A"]`. -/
theorem removal_pass_stale_iff_witness :
    (⟨"e1", [("zigbee", "X")]⟩ : DeviceEntry) ∈
      (async_setup_entry (.ok true) 0 (Except.ok ["A"])
        [⟨"e1", [("zigbee", "X")]⟩]).removed :=
  (removal_pass_stale_iff ["A"] (by decide) 0
    [⟨"e1", [("zigbee", "X")]⟩] ⟨"e1", [("zigbee", "X")]⟩).mpr (by decide)

/-- A throttled call does not refresh the throttle's last-run time, so a
whole tail of calls at times within the window of the last run are all
no-ops. -/
theorem runUpdates_all_throttled (t0 : Time) (ts : List Time)
    (hts : ∀ t ∈ ts, t ≤ t0 + MIN_TIME_BETWEEN_UPDATES) :
    ∀ s : AllyConnector, s.throttle_last_run = some t0 →
      runUpdates s ts = ts.map (fun _ => []) := by
  induction ts with
  | nil => intro s _; rfl
  | cons t ts ih =>
      intro s hs
      have hthr : s.throttleExpired t = false := by
        simp only [AllyConnector.throttleExpired, hs,
          decide_eq_false_iff_not, not_lt]
        have := hts t (List.mem_cons_self t ts)
        linarith
      have hstep : async_update s t (Except.ok []) = (s, [], Except.ok ()) :=
        async_update_throttled s t (Except.ok []) hthr
      show (async_update s t (Except.ok [])).2.1 ::
          runUpdates (async_update s t (Except.ok [])).1 ts
        = [] :: ts.map (fun _ => [])
      rw [hstep]
      exact congrArg _ (ih (fun x hx => hts x (List.mem_cons_of_mem t hx)) s hs)

/-- C2 counterexample: for calls at times 0 s, 20 s and 40 s, the calls
at 20 s and 40 s form a pair issued less than 30 s apart in which the
first call is a no-op while the later call performs the network fetch and
emits the change notification — a throttled call does not restart the
window, which is anchored at the last call that actually ran. -/
theorem throttle_pair_counterexample :
    (40000 : Time) - 20000 < MIN_TIME_BETWEEN_UPDATES ∧
    runUpdates initConnector [0, 20000, 40000] =
      [[Effect.fetchDeviceList 0, Effect.dispatchSignal], [],
       [Effect.fetchDeviceList 40000, Effect.dispatchSignal]] := by
  decide

/-- C2 (amended): for every pair of update calls where the first is
non-throttled (it performs the network fetch) and every later call comes
at most 30 s after it, each of those later calls is a no-op: it returns
immediately with no fetch and no change notification. -/
theorem throttle_window_noop (s : AllyConnector) (t1 : Time)
    (rest : List Time) (hrun : s.throttleExpired t1 = true)
    (hwin : ∀ t ∈ rest, t ≤ t1 + MIN_TIME_BETWEEN_UPDATES) :
    runUpdates s (t1 :: rest) =
      [Effect.fetchDeviceList (fetchStart t1 s.latest_write_time),
       Effect.dispatchSignal] :: rest.map (fun _ => []) := by
  have hstep := async_update_ok s t1 [] hrun
  show (async_update s t1 (Except.ok [])).2.1 ::
      runUpdates (async_update s t1 (Except.ok [])).1 rest
    = _ :: rest.map (fun _ => [])
  rw [hstep]
  exact congrArg _ (runUpdates_all_throttled t1 rest hwin _ rfl)

/-- C2 witness: after a fetch at time 0, calls at 10 s and 20 s are both
no-ops. -/
theorem throttle_window_noop_witness :
    runUpdates initConnector [0, 10000, 20000] =
      [[Effect.fetchDeviceList (fetchStart 0 initConnector.latest_write_time),
        Effect.dispatchSignal], [], []] :=
  throttle_window_noop initConnector 0 [10000, 20000] (by decide) (by decide)

/-- With no failure yet flagged, any of the five error kinds makes the
callback flag and log the error (each handler behaves identically). -/
theorem updateCallback_error_fresh (debug : Bool) (e : UpdateError) :
    updateCallback false debug (Except.error e)
      = ⟨true, true, false, false⟩ := by
  cases e <;> simp [updateCallback]

/-- With a failure already flagged, a repeated failure is logged exactly
when debug logging is enabled, and the flag stays set. -/
theorem updateCallback_error_reported (debug : Bool) (e : UpdateError) :
    updateCallback true debug (Except.error e)
      = ⟨true, debug, false, false⟩ := by
  cases e <;> cases debug <;> simp [updateCallback]

/-- A run of consecutive failing ticks starting with the flag set: every
tick keeps the flag, logs only under debug, and propagates nothing. -/
theorem runCallbacks_reported (debug : Bool) (es : List UpdateError) :
    runCallbacks true debug (es.map Except.error)
      = es.map (fun _ => (⟨true, debug, false, false⟩ : CallbackOutput)) := by
  induction es with
  | nil => rfl
  | cons e es ih =>
      show updateCallback true debug (Except.error e) ::
          runCallbacks (updateCallback true debug
            (Except.error e)).errorReported debug (es.map Except.error)
        = _
      rw [updateCallback_error_reported]
      exact congrArg _ ih

/-- C6: for a streak of consecutive failing ticks of any of the five
error kinds, starting with no failure flagged, no exception ever
propagates out of the callback, the first failure is logged, and the
repeats are suppressed unless debug logging is enabled (with debug on,
every failure is logged). -/
theorem update_callback_error_handling (debug : Bool) (e : UpdateError)
    (es : List UpdateError) :
    (∀ o ∈ runCallbacks false debug ((e :: es).map Except.error),
        o.propagated = false) ∧
    (runCallbacks false debug
        ((e :: es).map Except.error)).head?.map CallbackOutput.errorLogged
      = some true ∧
    (debug = false →
      ∀ o ∈ (runCallbacks false debug ((e :: es).map Except.error)).tail,
        o.errorLogged = false) ∧
    (debug = true →
      ∀ o ∈ runCallbacks false debug ((e :: es).map Except.error),
        o.errorLogged = true) := by
  have hrun : runCallbacks false debug ((e :: es).map Except.error)
      = (⟨true, true, false, false⟩ : CallbackOutput) ::
        es.map (fun _ => (⟨true, debug, false, false⟩ : CallbackOutput)) := by
    show updateCallback false debug (Except.error e) ::
        runCallbacks (updateCallback false debug
          (Except.error e)).errorReported debug (es.map Except.error)
      = _
    rw [updateCallback_error_fresh]
    exact congrArg _ (runCallbacks_reported debug es)
  rw [hrun]
  refine ⟨?_, rfl, ?_, ?_⟩
  · intro o ho
    rcases List.mem_cons.mp ho with h | h
    · rw [h]
    · obtain ⟨x, _, hx⟩ := List.mem_map.mp h
      rw [← hx]
  · intro hdebug o ho
    obtain ⟨x, _, hx⟩ := List.mem_map.mp ho
    rw [← hx, hdebug]
  · intro hdebug o ho
    rcases List.mem_cons.mp ho with h | h
    · rw [h]
    · obtain ⟨x, _, hx⟩ := List.mem_map.mp h
      rw [← hx, hdebug]

/-- C6 witness: two consecutive HTTP-error ticks without debug logging —
the first is logged, the second suppressed, nothing propagates. -/
theorem update_callback_error_handling_witness :
    runCallbacks false false
        [Except.error UpdateError.httpError, Except.error UpdateError.httpError]
      = [⟨true, true, false, false⟩, ⟨true, false, false, false⟩] ∧
    (∀ o ∈ runCallbacks false false
        [Except.error UpdateError.httpError,
         Except.error UpdateError.httpError],
      o.propagated = false) ∧
    (∀ o ∈ (runCallbacks false false
        [Except.error UpdateError.httpError,
         Except.error UpdateError.httpError]).tail,
      o.errorLogged = false) :=
  ⟨by decide,
   (update_callback_error_handling false .httpError [.httpError]).1,
   (update_callback_error_handling false .httpError [.httpError]).2.2.1 rfl⟩

end DanfossAlly
